import Mathlib

/-!
Verification of the Mermaid diagram rendering core.

Shallow embedding of `src/mcp_mermaid_image_gen/tools/mermaid_renderer.py`
(the function `render_mermaid_to_file`) and of the two tool handlers in
`src/mcp_mermaid_image_gen/server/app.py` (`mermaid_stdio_tool_logic`, the
File Delivery tool, and `mermaid_sse_tool_logic`, the Stream Delivery tool).

The filesystem is modelled as predicates on path strings, file contents as
abstract byte lists; the external `mmdc` process is an oracle mapping a
command line to an outcome (binary missing, or a run with an exit code,
captured stdout/stderr, and the bytes it wrote to the output path, if any).
Python exceptions are modelled by the inductive `Exc`; the keyword-argument
binding performed by the Python runtime at the two call sites in app.py is
modelled explicitly by `bindRenderCall`, since the call sites pass a keyword
`backgroundColor` that is not a parameter of `render_mermaid_to_file`.
-/

namespace MermaidGen

/-- Model of the filesystem visible to one render call: which paths exist,
which of them are directories, and file contents as abstract byte lists. -/
structure FS where
  pathExists : String → Bool
  isDir : String → Bool
  content : String → List Nat

/-- Writing a file creates a non-directory entry at the path holding the
given bytes; other paths are untouched. -/
def FS.writeFile (fs : FS) (p : String) (c : List Nat) : FS where
  pathExists := fun q => if q == p then true else fs.pathExists q
  isDir := fun q => if q == p then false else fs.isDir q
  content := fun q => if q == p then c else fs.content q

/-- Removing a path makes it nonexistent; other paths are untouched. -/
def FS.removePath (fs : FS) (p : String) : FS where
  pathExists := fun q => if q == p then false else fs.pathExists q
  isDir := fun q => if q == p then false else fs.isDir q
  content := fun q => if q == p then [] else fs.content q

/-- Python exceptions that flow through the two source files: a bare
FileNotFoundError, ValueError and TypeError with their message, and a
catch-all constructor for any other exception kind. -/
inductive Exc where
  | fileNotFound
  | valueError (msg : String)
  | typeError (msg : String)
  | other (msg : String)
  deriving DecidableEq

/-- The message text Python would interpolate for an exception, as used by
the f-string wrapping in the generic except clauses of app.py. -/
def excMessage : Exc → String
  | .fileNotFound => ""
  | .valueError m => m
  | .typeError m => m
  | .other m => m

/-- True exactly on the ValueError constructor. -/
def Exc.isValueError : Exc → Bool
  | .valueError _ => true
  | _ => false

/-- Outcome of attempting to execute the external mmdc process:
either the binary is absent (FileNotFoundError from subprocess.run), or the
process ran with an exit code, captured stdout and stderr, and optionally
wrote bytes to the requested output path. -/
inductive ProcResult where
  | binaryMissing
  | ran (returncode : Int) (stdout stderr : String) (output : Option (List Nat))
  deriving DecidableEq

/-- Environment oracles of one call: path resolution (os.path.abspath and
pathlib resolve), the fresh temporary file names tempfile would mint for the
.mmd input and the .png stream output, and the behaviour of the external
mmdc process on a given command line. -/
structure Env where
  abspath : String → String
  freshMmd : String
  freshPng : String
  mmdc : List String → ProcResult

/-- Bytes of a string written to a file (abstract byte model of the UTF-8
write of the diagram source). -/
def strBytes (s : String) : List Nat := s.data.map Char.toNat

/-- Python truthiness of an Optional[str]: None and the empty string are
falsy, any non-empty string is truthy. -/
def optTruthy : Option String → Bool
  | none => false
  | some s => !(s == "")

/-- mermaid_renderer.py: DEFAULT_MMDC_THEME = "default". -/
def DEFAULT_MMDC_THEME : String := "default"

/-- os.path.join of a directory and a relative file name (POSIX model); the
separator is inserted unless the directory already ends with it. -/
def joinPath (d n : String) : String :=
  if ['/'].isSuffixOf d.data then d ++ n else d ++ "/" ++ n

/-- mermaid_renderer.py lines 44-46: append ".png" unless the name,
lowercased, already ends with ".png" (the Python check
name.lower().endswith, on the character-list model of strings). -/
def normalizeName (n : String) : String :=
  if ['.', 'p', 'n', 'g'].isSuffixOf (n.data.map Char.toLower) then n else n ++ ".png"

/-- mermaid_renderer.py line 51: current_theme = theme if theme else
DEFAULT_MMDC_THEME (Python truthiness on the optional theme). -/
def currentTheme (theme : Option String) : String :=
  if optTruthy theme then theme.getD DEFAULT_MMDC_THEME else DEFAULT_MMDC_THEME

/-- mermaid_renderer.py lines 59-67: the mmdc command line, with -b appended
exactly when background_color is truthy. -/
def buildCmd (inputPath outputPath theme : String) (background_color : Option String) :
    List String :=
  ["mmdc", "-i", inputPath, "-o", outputPath, "-t", theme] ++
    (if optTruthy background_color then ["-b", background_color.getD ""] else [])

/-- mermaid_renderer.py lines 89-93: the ValueError message built from a
CalledProcessError, carrying the return code and captured stdout/stderr. -/
def renderFailedMessage (returncode : Int) (stdout stderr : String) : String :=
  "mmdc failed to generate diagram. Return code: " ++ toString returncode ++
    "\nStdout: " ++ stdout ++ "\nStderr: " ++ stderr

/-- os.remove: deletes the path, raising FileNotFoundError when it is absent. -/
def os_remove (fs : FS) (p : String) : Except Exc FS :=
  if fs.pathExists p then .ok (fs.removePath p) else .error .fileNotFound

/-- The guarded cleanup used in both source files: if os.path.exists(p) then
os.remove(p); pure form (this guard can never raise, see removeIfExists). -/
def cleanupTmp (fs : FS) (p : String) : FS :=
  if fs.pathExists p then fs.removePath p else fs

/-- The same guarded cleanup with os.remove kept fallible, to express that
the guard never lets the FileNotFoundError of os.remove arise. -/
def removeIfExists (fs : FS) (p : String) : Except Exc FS :=
  if fs.pathExists p then os_remove fs p else .ok fs

/-- Result of an embedded call: the returned value or raised exception, the
final filesystem, and the trace of external command lines attempted. -/
structure RunOut (α : Type) where
  result : Except Exc α
  fs : FS
  procs : List (List String)

/-- mermaid_renderer.py lines 54-101, the part after destination validation:
write the diagram source to the fresh temp .mmd file, build the command,
run mmdc (binary missing reraises FileNotFoundError; non-zero exit becomes
the ValueError of renderFailedMessage; zero exit returns the output path),
and in all cases run the guarded finally-cleanup of the temp input file. -/
def renderCore (env : Env) (fs : FS) (code output_path current_theme : String)
    (background_color : Option String) : RunOut String :=
  let tmp_input_file_path := env.freshMmd
  let fs := fs.writeFile tmp_input_file_path (strBytes code)
  let cmd := buildCmd tmp_input_file_path output_path current_theme background_color
  match env.mmdc cmd with
  | .binaryMissing =>
      { result := .error .fileNotFound
        fs := cleanupTmp fs tmp_input_file_path
        procs := [cmd] }
  | .ran returncode stdout stderr output =>
      let fs := match output with
        | some bytes => fs.writeFile output_path bytes
        | none => fs
      if returncode == 0 then
        { result := .ok output_path
          fs := cleanupTmp fs tmp_input_file_path
          procs := [cmd] }
      else
        { result := .error (.valueError (renderFailedMessage returncode stdout stderr))
          fs := cleanupTmp fs tmp_input_file_path
          procs := [cmd] }

/-- mermaid_renderer.py, render_mermaid_to_file: resolve the output
directory, raise ValueError when it does not exist or is not a directory,
normalize the file name, then run the rendering core on the joined output
path with the resolved theme. -/
def render_mermaid_to_file (env : Env) (fs : FS) (code output_dir name : String)
    (theme : Option String) (background_color : Option String) : RunOut String :=
  let output_dir := env.abspath output_dir
  if !(fs.pathExists output_dir) then
    { result := .error (.valueError ("Output directory does not exist: " ++ output_dir))
      fs := fs
      procs := [] }
  else if !(fs.isDir output_dir) then
    { result := .error (.valueError ("Output path is not a directory: " ++ output_dir))
      fs := fs
      procs := [] }
  else
    renderCore env fs code (joinPath output_dir (normalizeName name)) (currentTheme theme)
      background_color

/-- The bound arguments of a successful Python call to
render_mermaid_to_file. -/
structure RenderArgs where
  code : String
  output_dir : String
  name : String
  theme : Option String
  background_color : Option String

/-- The parameter names of render_mermaid_to_file. -/
def renderParamNames : List String :=
  ["code", "output_dir", "name", "theme", "background_color"]

/-- Python argument binding for render_mermaid_to_file at the shapes used by
the two call sites in app.py: some leading positional string arguments plus
keyword arguments with Optional[str] values. A keyword that is not a
parameter name raises TypeError (CPython reports this before missing
arguments); with fewer than three positional arguments and no required
parameter supplied by keyword (true at both call sites), the required
parameter name is missing and TypeError is raised. -/
def bindRenderCall (positional : List String) (kwargs : List (String × Option String)) :
    Except Exc RenderArgs :=
  match kwargs.find? (fun kv => !(renderParamNames.contains kv.1)) with
  | some kv =>
      .error (.typeError
        ("render_mermaid_to_file() got an unexpected keyword argument " ++ kv.1))
  | none =>
      match positional with
      | c :: od :: n :: _ =>
          .ok { code := c, output_dir := od, name := n
                theme := (kwargs.lookup "theme").join
                background_color := (kwargs.lookup "background_color").join }
      | _ =>
          .error (.typeError
            "render_mermaid_to_file() missing 1 required positional argument: name")

/-- app.py lines 58-66: the except clauses of the File Delivery tool.
FileNotFoundError becomes the install-instruction ValueError, ValueError is
re-raised unchanged, and any other exception is wrapped in the generic
unexpected-error ValueError carrying the original message. -/
def stdioExceptClauses : Exc → Exc
  | .fileNotFound =>
      .valueError "mmdc command not found. Ensure @mermaid-js/mermaid-cli is installed globally."
  | .valueError m => .valueError m
  | e =>
      .valueError ("An unexpected error occurred in file diagram generation: " ++ excMessage e)

/-- app.py lines 103-111: the except clauses of the Stream Delivery tool. -/
def sseExceptClauses : Exc → Exc
  | .fileNotFound =>
      .valueError "mmdc command not found. Ensure @mermaid-js/mermaid-cli is installed globally."
  | .valueError m => .valueError m
  | e =>
      .valueError ("An unexpected error occurred in stream diagram generation: " ++ excMessage e)

/-- app.py lines 38-67, tool generate_mermaid_diagram_file: join folder and
name, resolve, then call render_mermaid_to_file with two positional
arguments (code and the resolved path) and keywords theme and
backgroundColor, exactly as the source does; the Python binding of that call
is modelled by bindRenderCall. On success the resolved path is returned; a
raised exception passes through the except clauses. -/
def mermaid_stdio_tool_logic (env : Env) (fs : FS) (code folder name : String)
    (theme : Option String) (backgroundColor : Option String) : RunOut String :=
  let output_path := env.abspath (joinPath folder name)
  let inner : RunOut String :=
    match bindRenderCall [code, output_path]
        [("theme", theme), ("backgroundColor", backgroundColor)] with
    | .error e => { result := .error e, fs := fs, procs := [] }
    | .ok a =>
        let o := render_mermaid_to_file env fs a.code a.output_dir a.name a.theme
          a.background_color
        match o.result with
        | .ok _ => { o with result := .ok output_path }
        | .error _ => o
  match inner.result with
  | .ok v => { inner with result := .ok v }
  | .error e => { inner with result := .error (stdioExceptClauses e) }

/-- The ImageContent payload returned by the Stream Delivery tool. -/
structure ImageContent where
  type : String
  data : String
  mimeType : String
  deriving DecidableEq

/-- A character of the base64 alphabet. -/
def b64Char (n : Nat) : Char :=
  "ABCDEFGHIJKLMNOPQRSTUVWXYZabcdefghijklmnopqrstuvwxyz0123456789+/".data.getD n
    (Char.ofNat 65)

/-- Standard base64 of a byte list, chunked three bytes to four
characters, padded with = signs. -/
def base64Chunks : List Nat → List Char
  | [] => []
  | [a] =>
      let a := a % 256
      [b64Char (a / 4), b64Char (a % 4 * 16), Char.ofNat 61, Char.ofNat 61]
  | [a, b] =>
      let a := a % 256
      let b := b % 256
      [b64Char (a / 4), b64Char (a % 4 * 16 + b / 16), b64Char (b % 16 * 4), Char.ofNat 61]
  | a :: b :: c :: rest =>
      let a := a % 256
      let b := b % 256
      let c := c % 256
      b64Char (a / 4) :: b64Char (a % 4 * 16 + b / 16) :: b64Char (b % 16 * 4 + c / 64) ::
        b64Char (c % 64) :: base64Chunks rest

/-- base64.b64encode(...).decode, on the abstract byte model. -/
def base64Encode (bs : List Nat) : String := String.mk (base64Chunks bs)

/-- app.py lines 74-115, tool generate_mermaid_diagram_stream: mint a fresh
temp .png path (NamedTemporaryFile creates the file), call
render_mermaid_to_file with two positional arguments and the theme and
backgroundColor keywords as the source does, on success read the temp file
back and package its bytes base64-encoded as an image/png ImageContent
(reading a missing file raises FileNotFoundError), pass raised exceptions
through the except clauses, and in the finally block remove the temp output
path when it is a non-empty name and still exists. -/
def mermaid_sse_tool_logic (env : Env) (fs : FS) (code : String)
    (theme : Option String) (backgroundColor : Option String) : RunOut ImageContent :=
  let tmp_output_path := env.freshPng
  let fs := fs.writeFile tmp_output_path []
  let inner : RunOut ImageContent :=
    match bindRenderCall [code, tmp_output_path]
        [("theme", theme), ("backgroundColor", backgroundColor)] with
    | .error e => { result := .error e, fs := fs, procs := [] }
    | .ok a =>
        let o := render_mermaid_to_file env fs a.code a.output_dir a.name a.theme
          a.background_color
        match o.result with
        | .ok _ =>
            if o.fs.pathExists tmp_output_path then
              let payload : ImageContent :=
                { type := "image"
                  data := base64Encode (o.fs.content tmp_output_path)
                  mimeType := "image/png" }
              { result := .ok payload, fs := o.fs, procs := o.procs }
            else
              { result := .error .fileNotFound, fs := o.fs, procs := o.procs }
        | .error e => { result := .error e, fs := o.fs, procs := o.procs }
  { result :=
      match inner.result with
      | .ok v => .ok v
      | .error e => .error (sseExceptClauses e)
    fs :=
      if tmp_output_path == "" then inner.fs else cleanupTmp inner.fs tmp_output_path
    procs := inner.procs }

/-- Concrete filesystem for witnesses: exactly one entry, the directory
/out. -/
def fsOut : FS where
  pathExists := fun p => p == "/out"
  isDir := fun p => p == "/out"
  content := fun _ => []

/-- Concrete environment: paths resolve to themselves, mmdc succeeds with
exit code 0 and writes a PNG-header byte list to the output. -/
def envRenderOk : Env where
  abspath := fun p => p
  freshMmd := "/tmp/in.mmd"
  freshPng := "/tmp/out.png"
  mmdc := fun _ => .ran 0 "" "" (some [137, 80, 78, 71])

/-- Concrete environment in which the mmdc binary is absent. -/
def envBinaryMissing : Env where
  abspath := fun p => p
  freshMmd := "/tmp/in.mmd"
  freshPng := "/tmp/out.png"
  mmdc := fun _ => .binaryMissing

/-- Concrete environment in which mmdc exits with code 1 and diagnostic
output, creating no file. -/
def envExitOne : Env where
  abspath := fun p => p
  freshMmd := "/tmp/in.mmd"
  freshPng := "/tmp/out.png"
  mmdc := fun _ => .ran 1 "parse log" "syntax error" none

/-- Concrete environment in which mmdc exits with code 0 and a warning on
stderr but creates no output file. -/
def envZeroNoOutput : Env where
  abspath := fun p => p
  freshMmd := "/tmp/in.mmd"
  freshPng := "/tmp/out.png"
  mmdc := fun _ => .ran 0 "" "warning only" none

/-- Concrete environment in which mmdc exits with code 0 with a warning on
stderr and writes the output file. -/
def envZeroWarnOut : Env where
  abspath := fun p => p
  freshMmd := "/tmp/in.mmd"
  freshPng := "/tmp/out.png"
  mmdc := fun _ => .ran 0 "" "warning: deprecated flag" (some [137, 80, 78, 71])

/-- The guarded cleanup leaves its path nonexistent. -/
theorem cleanupTmp_pathExists_self (fs : FS) (p : String) :
    (cleanupTmp fs p).pathExists p = false := by
  unfold cleanupTmp
  cases h : fs.pathExists p with
  | true => simp [FS.removePath]
  | false => simp [h]

/-- After the rendering core, the temporary input file is gone. -/
theorem renderCore_tmp_cleaned (env : Env) (fs : FS) (code op th : String)
    (bg : Option String) :
    (renderCore env fs code op th bg).fs.pathExists env.freshMmd = false := by
  unfold renderCore
  cases h : env.mmdc (buildCmd env.freshMmd op th bg) with
  | binaryMissing => simp [h, cleanupTmp_pathExists_self]
  | ran rc out err ob =>
      cases ob <;> cases hrc : rc == 0 <;> simp [h, hrc, cleanupTmp_pathExists_self]

/-- The rendering core executes exactly the built command line. -/
theorem renderCore_procs (env : Env) (fs : FS) (code op th : String)
    (bg : Option String) :
    (renderCore env fs code op th bg).procs = [buildCmd env.freshMmd op th bg] := by
  unfold renderCore
  cases h : env.mmdc (buildCmd env.freshMmd op th bg) with
  | binaryMissing => simp [h]
  | ran rc out err ob =>
      cases ob <;> cases hrc : rc == 0 <;> simp [h, hrc]

/-- With a valid destination directory, render_mermaid_to_file is the
rendering core on the joined, normalized output path. -/
theorem render_valid_eq (env : Env) (fs : FS) (code output_dir name : String)
    (theme background_color : Option String)
    (h1 : fs.pathExists (env.abspath output_dir) = true)
    (h2 : fs.isDir (env.abspath output_dir) = true) :
    render_mermaid_to_file env fs code output_dir name theme background_color =
      renderCore env fs code (joinPath (env.abspath output_dir) (normalizeName name))
        (currentTheme theme) background_color := by
  unfold render_mermaid_to_file
  simp [h1, h2]

/-- The resolved theme, written out by cases. -/
theorem currentTheme_cases (theme : Option String) :
    currentTheme theme =
      match theme with
      | some s => if s == "" then "default" else s
      | none => "default" := by
  cases theme with
  | none => rfl
  | some s => cases h : s == "" <;> simp [currentTheme, optTruthy, h, DEFAULT_MMDC_THEME]

/-- The background-color suffix of the command, written out by cases. -/
theorem bgFlag_cases (background_color : Option String) :
    (if optTruthy background_color then ["-b", background_color.getD ""] else []) =
      match background_color with
      | some s => if s == "" then [] else ["-b", s]
      | none => [] := by
  cases background_color with
  | none => rfl
  | some s => cases h : s == "" <;> simp [optTruthy, h]

/-- C1: Both tool handlers pass render_mermaid_to_file only two positional
arguments (omitting the required parameter name) together with the keyword
backgroundColor, which is not one of its parameters; the resulting TypeError
is caught by the generic except clause and re-raised as the unexpected-error
ValueError, so neither tool ever returns a success result, for any input. -/
theorem c1_tool_handlers_always_fail (env : Env) (fs : FS)
    (code folder name : String) (theme backgroundColor : Option String) :
    (mermaid_stdio_tool_logic env fs code folder name theme backgroundColor).result =
      .error (.valueError "An unexpected error occurred in file diagram generation: render_mermaid_to_file() got an unexpected keyword argument backgroundColor") ∧
    (mermaid_sse_tool_logic env fs code theme backgroundColor).result =
      .error (.valueError "An unexpected error occurred in stream diagram generation: render_mermaid_to_file() got an unexpected keyword argument backgroundColor") :=
  ⟨rfl, rfl⟩

/-- C2 (code bug, evaluated): on a fully valid File Delivery input — a
non-empty diagram, the existing destination directory /out and the name
diagram — the tool raises the wrapped unexpected-error ValueError instead of
returning the resolved output path, while render_mermaid_to_file itself,
called with its actual parameters, returns /out/diagram.png (the name with
.png appended) and that file exists afterwards. -/
theorem c2_file_delivery_fails_on_valid_input :
    (mermaid_stdio_tool_logic envRenderOk fsOut "graph TD; A-->B" "/out" "diagram"
        none none).result =
      .error (.valueError "An unexpected error occurred in file diagram generation: render_mermaid_to_file() got an unexpected keyword argument backgroundColor") ∧
    (render_mermaid_to_file envRenderOk fsOut "graph TD; A-->B" "/out" "diagram"
        none none).result = .ok "/out/diagram.png" ∧
    (render_mermaid_to_file envRenderOk fsOut "graph TD; A-->B" "/out" "diagram"
        none none).fs.pathExists "/out/diagram.png" = true :=
  ⟨rfl, rfl, rfl⟩

/-- C3 (code bug, evaluated): on a valid Stream Delivery input with a
working renderer, the tool raises the wrapped unexpected-error ValueError
instead of returning the image/png payload. -/
theorem c3_stream_delivery_fails_on_valid_input :
    (mermaid_sse_tool_logic envRenderOk fsOut "graph TD; A-->B" none none).result =
      .error (.valueError "An unexpected error occurred in stream diagram generation: render_mermaid_to_file() got an unexpected keyword argument backgroundColor") :=
  rfl

/-- C4: on every exit path of render_mermaid_to_file, either the
diagram-source temp file is absent from the final state or the call failed
validation and left the filesystem untouched (so it never created a temp
file); and the Stream Delivery tool always deletes its ephemeral output temp
file before returning, for every outcome. -/
theorem c4_temp_files_cleaned (env : Env) (fs : FS) (code output_dir name : String)
    (theme background_color : Option String) (h : env.freshPng ≠ "") :
    ((render_mermaid_to_file env fs code output_dir name theme
        background_color).fs.pathExists env.freshMmd = false ∨
      (render_mermaid_to_file env fs code output_dir name theme background_color).fs = fs) ∧
    (mermaid_sse_tool_logic env fs code theme background_color).fs.pathExists env.freshPng =
      false := by
  constructor
  · unfold render_mermaid_to_file
    cases h1 : fs.pathExists (env.abspath output_dir) with
    | false => right; simp [h1]
    | true =>
        cases h2 : fs.isDir (env.abspath output_dir) with
        | false => right; simp [h1, h2]
        | true => left; simp [h1, h2, renderCore_tmp_cleaned]
  · unfold mermaid_sse_tool_logic
    have hb : (env.freshPng == "") = false := by
      simpa using h
    simp [hb, cleanupTmp_pathExists_self]

/-- C4 witness at a concrete environment and filesystem. -/
theorem c4_temp_files_cleaned_witness :
    ((render_mermaid_to_file envRenderOk fsOut "graph" "/out" "d" none
        none).fs.pathExists envRenderOk.freshMmd = false ∨
      (render_mermaid_to_file envRenderOk fsOut "graph" "/out" "d" none none).fs = fsOut) ∧
    (mermaid_sse_tool_logic envRenderOk fsOut "graph" none none).fs.pathExists
      envRenderOk.freshPng = false :=
  c4_temp_files_cleaned envRenderOk fsOut "graph" "/out" "d" none none (by decide)

/-- C5: with a valid destination, a missing mmdc binary makes
render_mermaid_to_file raise the bare FileNotFoundError — a condition
distinct from every ValueError, mapped by the File Delivery except clause to
the install-instruction message — and a non-zero exit makes it raise the
ValueError whose message interpolates the exit code and the captured stdout
and stderr. -/
theorem c5_failure_classification (env : Env) (fs : FS) (code output_dir name : String)
    (theme background_color : Option String) (rc : Int) (out err : String)
    (ob : Option (List Nat))
    (h1 : fs.pathExists (env.abspath output_dir) = true)
    (h2 : fs.isDir (env.abspath output_dir) = true) :
    (env.mmdc (buildCmd env.freshMmd
        (joinPath (env.abspath output_dir) (normalizeName name)) (currentTheme theme)
        background_color) = .binaryMissing →
      (render_mermaid_to_file env fs code output_dir name theme background_color).result =
        .error .fileNotFound) ∧
    (env.mmdc (buildCmd env.freshMmd
        (joinPath (env.abspath output_dir) (normalizeName name)) (currentTheme theme)
        background_color) = .ran rc out err ob → rc ≠ 0 →
      (render_mermaid_to_file env fs code output_dir name theme background_color).result =
        .error (.valueError (renderFailedMessage rc out err))) ∧
    (∀ m : String, Exc.fileNotFound ≠ Exc.valueError m) ∧
    stdioExceptClauses .fileNotFound =
      .valueError
        "mmdc command not found. Ensure @mermaid-js/mermaid-cli is installed globally." := by
  refine ⟨?_, ?_, ?_, rfl⟩
  case refine_3 => exact fun m hm => Exc.noConfusion hm
  · intro hrun
    rw [render_valid_eq env fs code output_dir name theme background_color h1 h2]
    unfold renderCore
    simp [hrun]
  · intro hrun hrc
    rw [render_valid_eq env fs code output_dir name theme background_color h1 h2]
    unfold renderCore
    have hb : (rc == 0) = false := by simpa using hrc
    cases ob <;> simp [hrun, hb]

/-- C5 witness: the binary-missing and non-zero-exit environments. -/
theorem c5_failure_classification_witness :
    (render_mermaid_to_file envBinaryMissing fsOut "graph" "/out" "d" none none).result =
      .error .fileNotFound ∧
    (render_mermaid_to_file envExitOne fsOut "graph" "/out" "d" none none).result =
      .error (.valueError (renderFailedMessage 1 "parse log" "syntax error")) :=
  ⟨(c5_failure_classification envBinaryMissing fsOut "graph" "/out" "d" none none 1 "" ""
      none rfl rfl).1 rfl,
   ((c5_failure_classification envExitOne fsOut "graph" "/out" "d" none none 1 "parse log"
      "syntax error" none rfl rfl).2.1) rfl (by decide)⟩

/-- C6: render_mermaid_to_file resolves the destination directory and fails
with the does-not-exist ValueError when the resolved path is absent, and
with the not-a-directory ValueError when it exists but is not a directory;
in both cases the filesystem is untouched and no external command was run,
so the failure precedes any rendering attempt. -/
theorem c6_invalid_destination (env : Env) (fs : FS) (code output_dir name : String)
    (theme background_color : Option String) :
    (fs.pathExists (env.abspath output_dir) = false →
      render_mermaid_to_file env fs code output_dir name theme background_color =
        { result := .error (.valueError ("Output directory does not exist: " ++
            env.abspath output_dir))
          fs := fs
          procs := [] }) ∧
    (fs.pathExists (env.abspath output_dir) = true →
      fs.isDir (env.abspath output_dir) = false →
      render_mermaid_to_file env fs code output_dir name theme background_color =
        { result := .error (.valueError ("Output path is not a directory: " ++
            env.abspath output_dir))
          fs := fs
          procs := [] }) := by
  constructor
  · intro h1
    unfold render_mermaid_to_file
    simp [h1]
  · intro h1 h2
    unfold render_mermaid_to_file
    simp [h1, h2]

/-- C6 witness: a destination that does not exist. -/
theorem c6_invalid_destination_witness :
    render_mermaid_to_file envRenderOk fsOut "graph" "/missing" "d" none none =
      { result := .error (.valueError ("Output directory does not exist: " ++
          envRenderOk.abspath "/missing"))
        fs := fsOut
        procs := [] } :=
  (c6_invalid_destination envRenderOk fsOut "graph" "/missing" "d" none none).1 rfl

/-- C7 counterexample: mmdc exits with status zero but creates no output
file, and render_mermaid_to_file still reports success with the output path,
although the expected output file does not exist afterwards — so success is
not conditioned on the output file existing. -/
theorem c7_success_without_output_file :
    (render_mermaid_to_file envZeroNoOutput fsOut "graph" "/out" "d" none none).result =
      .ok "/out/d.png" ∧
    (render_mermaid_to_file envZeroNoOutput fsOut "graph" "/out" "d" none
      none).fs.pathExists "/out/d.png" = false :=
  ⟨rfl, rfl⟩

/-- C7 amended: when the destination is valid and the process runs, the
invocation is reported as a success exactly when the exit status is zero —
the existence of the output file is not checked — and stderr output
alongside a zero exit is still a success. -/
theorem c7_success_iff_zero_exit (env : Env) (fs : FS) (code output_dir name : String)
    (theme background_color : Option String) (rc : Int) (out err : String)
    (ob : Option (List Nat))
    (h1 : fs.pathExists (env.abspath output_dir) = true)
    (h2 : fs.isDir (env.abspath output_dir) = true)
    (hrun : env.mmdc (buildCmd env.freshMmd
        (joinPath (env.abspath output_dir) (normalizeName name)) (currentTheme theme)
        background_color) = .ran rc out err ob) :
    ((render_mermaid_to_file env fs code output_dir name theme background_color).result =
        .ok (joinPath (env.abspath output_dir) (normalizeName name))) ↔ rc = 0 := by
  rw [render_valid_eq env fs code output_dir name theme background_color h1 h2]
  unfold renderCore
  cases ob <;> cases hrc : rc == 0 <;>
    simp_all

/-- C7 amended witness: zero exit with a stderr warning and an output file
is reported as a success. -/
theorem c7_success_iff_zero_exit_witness :
    (render_mermaid_to_file envZeroWarnOut fsOut "graph" "/out" "d" none none).result =
      .ok (joinPath (envZeroWarnOut.abspath "/out") (normalizeName "d")) :=
  (c7_success_iff_zero_exit envZeroWarnOut fsOut "graph" "/out" "d" none none 0 ""
      "warning: deprecated flag" (some [137, 80, 78, 71]) rfl rfl rfl).mpr rfl

/-- C8 counterexample: the caller supplies a background color (the empty
string), yet the executed command line carries no -b flag, refuting the
claimed if-and-only-if between supplying a background color and the flag. -/
theorem c8_supplied_background_without_flag :
    (some "" : Option String).isSome = true ∧
    ((render_mermaid_to_file envRenderOk fsOut "graph" "/out" "d" none
        (some "")).procs.getD 0 []).contains "-b" = false :=
  ⟨rfl, rfl⟩

/-- C8 amended: with a valid destination, exactly one external command is
run, namely mmdc -i input -o output -t theme — where the theme is the fixed
default when the caller omits the theme or supplies an empty one — followed
by -b color exactly when the caller supplied a non-empty background
color. -/
theorem c8_command_line_shape (env : Env) (fs : FS) (code output_dir name : String)
    (theme background_color : Option String)
    (h1 : fs.pathExists (env.abspath output_dir) = true)
    (h2 : fs.isDir (env.abspath output_dir) = true) :
    (render_mermaid_to_file env fs code output_dir name theme background_color).procs =
      [(["mmdc", "-i", env.freshMmd, "-o",
          joinPath (env.abspath output_dir) (normalizeName name), "-t",
          match theme with
          | some s => if s == "" then "default" else s
          | none => "default"] ++
        match background_color with
        | some s => if s == "" then [] else ["-b", s]
        | none => [])] := by
  rw [render_valid_eq env fs code output_dir name theme background_color h1 h2,
    renderCore_procs]
  rw [buildCmd, currentTheme_cases, bgFlag_cases]

/-- C8 amended witness: a non-empty theme and background color yield both
flags with the supplied values. -/
theorem c8_command_line_shape_witness :
    (render_mermaid_to_file envRenderOk fsOut "graph" "/out" "d" (some "dark")
        (some "white")).procs =
      [(["mmdc", "-i", envRenderOk.freshMmd, "-o",
          joinPath (envRenderOk.abspath "/out") (normalizeName "d"), "-t",
          match (some "dark" : Option String) with
          | some s => if s == "" then "default" else s
          | none => "default"] ++
        match (some "white" : Option String) with
        | some s => if s == "" then [] else ["-b", s]
        | none => [])] :=
  c8_command_line_shape envRenderOk fsOut "graph" "/out" "d" (some "dark") (some "white")
    rfl rfl

/-- C9: every failure inside either tool is surfaced as the single
ValueError kind: the except clauses map every exception kind to a
ValueError; a fault that is neither FileNotFoundError nor ValueError is
wrapped in the generic message carrying the original message; and for every
input both tool results are either a success value or a ValueError — never a
different exception kind. -/
theorem c9_error_normalization (env : Env) (fs : FS) (code folder name : String)
    (theme backgroundColor : Option String) (e : Exc) (m : String) :
    (stdioExceptClauses e).isValueError = true ∧
    (sseExceptClauses e).isValueError = true ∧
    stdioExceptClauses (.typeError m) =
      .valueError ("An unexpected error occurred in file diagram generation: " ++ m) ∧
    sseExceptClauses (.other m) =
      .valueError ("An unexpected error occurred in stream diagram generation: " ++ m) ∧
    (match (mermaid_stdio_tool_logic env fs code folder name theme
        backgroundColor).result with
      | .ok _ => True
      | .error err => err.isValueError = true) ∧
    (match (mermaid_sse_tool_logic env fs code theme backgroundColor).result with
      | .ok _ => True
      | .error err => err.isValueError = true) := by
  refine ⟨?_, ?_, rfl, rfl, ?_, ?_⟩
  · cases e <;> rfl
  · cases e <;> rfl
  · exact rfl
  · exact rfl

/-- C10: the existence-guarded cleanup used on every cleanup path never
raises: it returns the pure cleanup result for every state; deleting a path
that was already removed succeeds leaving the state unchanged; and when the
temporary file no longer exists the cleanup completes without error. -/
theorem c10_double_deletion_safe (fs : FS) (p : String) :
    removeIfExists fs p = .ok (cleanupTmp fs p) ∧
    removeIfExists (fs.removePath p) p = .ok (fs.removePath p) ∧
    (fs.pathExists p = false → removeIfExists fs p = .ok fs) := by
  refine ⟨?_, ?_, ?_⟩
  · unfold removeIfExists os_remove cleanupTmp
    cases h : fs.pathExists p <;> simp [h]
  · unfold removeIfExists os_remove
    simp [FS.removePath]
  · intro h
    unfold removeIfExists
    simp [h]

/-- C10 witness: cleaning up a path that does not exist succeeds. -/
theorem c10_double_deletion_safe_witness :
    removeIfExists fsOut "/gone" = .ok fsOut :=
  (c10_double_deletion_safe fsOut "/gone").2.2 rfl

end MermaidGen
